import Mathlib

/-!
# testchain: transaction construction, signing and deployment

A shallow embedding of `testchain.go` (package `testchain` of
wealdtech/go-testchain) and the properties of its three entry points
`NewTestChain`, `CreateSignedTransaction` and `DeployContract`.

The package is a thin orchestration layer over go-ethereum.  What go-ethereum
provides is kept abstract:

* the simulated ledger (`backends.SimulatedBackend`) is a record of operations
  over an arbitrary state type `σ`; every operation returns the state it leaves
  behind, because in Go each of them is a method on a pointer;
* key generation, address derivation, the signer and `types.SignTx` are the
  fields of `Library`.

Go's `(value, error)` results are the type `Outcome`, which has a third
alternative for a run-time panic (a nil dereference inside a callee).
Every function of the package returns, next to its outcome, the chain it leaves
behind and the list of library calls it made, in order.
-/

namespace Testchain

/-! ## Data model -/

/-- The numeric value of a 20-byte `common.Address`. -/
abbrev Address := Nat

/-- The numeric value of a 32-byte `common.Hash`. -/
abbrev Hash := Nat

/-- A Go `error`, identified with its message. -/
abbrev Error := String

/-- The result of a Go call of type `(*T, error)`: a value with a nil error, a
non-nil error with no value, or a run-time panic inside the call. -/
inductive Outcome (α : Type) where
  | ok (val : α)
  | error (err : Error)
  | panic
deriving DecidableEq, Repr

/-- The returned value (Go's first result), nil unless the call succeeded. -/
def Outcome.val? {α : Type} : Outcome α → Option α
  | .ok v => some v
  | _ => none

/-- The returned error (Go's second result), nil when the call succeeded. -/
def Outcome.err? {α : Type} : Outcome α → Option Error
  | .error e => some e
  | _ => none

/-- The message `ethereum.CallMsg`; `CreateSignedTransaction` fills `From`, `To`,
`Value` and `Data` and leaves `Gas` and `GasPrice` at their zero values. -/
structure CallMsg where
  From : Address
  To : Option Address
  Gas : Nat
  GasPrice : Option Int
  Value : Int
  Data : List Nat
deriving DecidableEq, Repr

/-- The fields of a `types.Transaction` (go-ethereum's `txdata`): a nil
`Recipient` marks a contract creation; `V`, `R`, `S` hold the signature. -/
structure Transaction where
  AccountNonce : Nat
  Price : Int
  GasLimit : Nat
  Recipient : Option Address
  Amount : Int
  Payload : List Nat
  V : Int
  R : Int
  S : Int
deriving DecidableEq, Repr

/-- The common constructor behind go-ethereum's `types.NewTransaction` and
`types.NewContractCreation`: the signature values start at zero. -/
def newTransaction (nonce : Nat) (to_ : Option Address) (amount : Int) (gasLimit : Nat)
    (gasPrice : Int) (data : List Nat) : Transaction :=
  { AccountNonce := nonce, Price := gasPrice, GasLimit := gasLimit, Recipient := to_,
    Amount := amount, Payload := data, V := 0, R := 0, S := 0 }

/-- The constructor `types.NewTransaction`: a transaction addressed to `to_`. -/
def NewTransaction (nonce : Nat) (to_ : Address) (amount : Int) (gasLimit : Nat)
    (gasPrice : Int) (data : List Nat) : Transaction :=
  newTransaction nonce (some to_) amount gasLimit gasPrice data

/-- The constructor `types.NewContractCreation`: a transaction with no recipient. -/
def NewContractCreation (nonce : Nat) (amount : Int) (gasLimit : Nat)
    (gasPrice : Int) (data : List Nat) : Transaction :=
  newTransaction nonce none amount gasLimit gasPrice data

/-- The fields of a `types.Receipt` that `DeployContract` reads. -/
structure Receipt where
  Status : Nat
  ContractAddress : Address
deriving DecidableEq, Repr

/-- The field of a `bind.TransactOpts` that this package reads. -/
structure TransactOpts where
  From : Address
deriving DecidableEq, Repr

/-- One entry of `core.GenesisAlloc`; the balance is a `*big.Int`. -/
structure GenesisAccount where
  Balance : Option Int
deriving DecidableEq, Repr

/-- A Go map from addresses: a missing key reads as nil. -/
abbrev AddressMap (α : Type) := Address → Option α

/-- The empty map, as made by `make(map[common.Address]...)`. -/
def AddressMap.empty {α : Type} : AddressMap α := fun _ => none

/-- The assignment `m[k] = v`. -/
def AddressMap.set {α : Type} (m : AddressMap α) (k : Address) (v : α) : AddressMap α :=
  fun a => if a = k then some v else m a

/-- The genesis allocation `core.GenesisAlloc`. -/
abbrev GenesisAlloc := AddressMap GenesisAccount

/-- What the package uses of go-ethereum apart from the ledger.  `GenerateKey i`
is the key returned by the `i`-th call of `crypto.GenerateKey` (its error is
discarded by the caller); `SignTx` receives the key as the pointer read from the
map, nil when the map has no entry. -/
structure Library (Config Signer Key : Type) where
  AllEthashProtocolChanges : Config
  MakeSigner : Config → Option Int → Signer
  SignTx : Transaction → Signer → Option Key → Outcome Transaction
  Hash : Transaction → Hash
  GenerateKey : Nat → Key
  NewKeyedTransactor : Key → TransactOpts

/-- The operations of `backends.SimulatedBackend` that the package calls, over
a ledger state `σ`.  `TransactionReceipt` may return a nil receipt with a nil
error. -/
structure SimulatedBackend (σ : Type) where
  NewSimulatedBackend : GenesisAlloc → Nat → σ
  PendingNonceAt : σ → Address → Except Error Nat × σ
  EstimateGas : σ → CallMsg → Except Error Nat × σ
  SendTransaction : σ → Transaction → Option Error × σ
  Commit : σ → σ
  TransactionReceipt : σ → Hash → Except Error (Option Receipt) × σ

/-- The struct `TestChain`. -/
structure TestChain (σ Key : Type) where
  Chain : σ
  Accounts : List Address
  PrivateKeys : AddressMap Key
  TransactOpts : AddressMap TransactOpts

/-- A call made to the ledger or to the signing library. -/
inductive Event (Signer Key : Type) where
  | PendingNonceAt (account : Address)
  | EstimateGas (call : CallMsg)
  | SignTx (tx : Transaction) (signer : Signer) (prv : Option Key)
  | SendTransaction (tx : Transaction)
  | Commit
  | TransactionReceipt (txHash : Hash)
deriving DecidableEq, Repr

/-- The result of running a method of `*TestChain`: what it returns, the chain it
leaves behind and the calls it made, first call first. -/
structure Run (σ Signer Key α : Type) where
  out : Outcome α
  tc : TestChain σ Key
  log : List (Event Signer Key)

/-! ## `_bigInt` -/

/-- The value of a decimal digit, as read by `big.Int.SetString` in base 10. -/
def digitVal (c : Char) : Option Nat :=
  if 48 ≤ c.toNat ∧ c.toNat ≤ 57 then some (c.toNat - 48) else none

/-- Reads a run of decimal digits that must extend to the end of the input. -/
def scanDigits : List Char → Nat → Option Nat
  | [], acc => some acc
  | c :: cs, acc =>
    match digitVal c with
    | some d => scanDigits cs (10 * acc + d)
    | none => none

/-- The function `new(big.Int).SetString(s, 10)`: an optional sign followed by at
least one decimal digit and nothing else; nil when the text is not of that form. -/
def SetString (s : List Char) : Option Int :=
  match s with
  | '-' :: ds => if ds = [] then none else (scanDigits ds 0).map (fun n => - (n : Int))
  | '+' :: ds => if ds = [] then none else (scanDigits ds 0).map (fun n => (n : Int))
  | ds => if ds = [] then none else (scanDigits ds 0).map (fun n => (n : Int))

/-- The function `_bigInt`: the parse result, whose success flag is discarded. -/
def _bigInt (input : String) : Option Int :=
  SetString input.toList

/-! ## `CreateSignedTransaction` -/

section Code

variable {Config Signer Key σ : Type}

/-- The call message built by `CreateSignedTransaction` for gas estimation. -/
def callMsg (sender : Address) (to_ : Option Address) (value : Int) (data : List Nat) :
    CallMsg :=
  { From := sender, To := to_, Gas := 0, GasPrice := none, Value := value, Data := data }

/-- The transaction built by `CreateSignedTransaction` before signing: a contract
creation when `to_` is nil, a transaction to `to_` otherwise. -/
def unsignedTx (nonce : Nat) (to_ : Option Address) (value : Int) (gasLimit : Nat)
    (gasPrice : Int) (data : List Nat) : Transaction :=
  match to_ with
  | none => NewContractCreation nonce value gasLimit gasPrice data
  | some recipient => NewTransaction nonce recipient value gasLimit gasPrice data

/-- The method `CreateSignedTransaction`.  Its parameters `from` and `to` are
named `sender` and `to_` here, the Go names being reserved words. -/
def CreateSignedTransaction (lib : Library Config Signer Key) (b : SimulatedBackend σ)
    (tc : TestChain σ Key) (sender : Address) (to_ : Option Address) (value : Int)
    (data : List Nat) : Run σ Signer Key Transaction :=
  match b.PendingNonceAt tc.Chain sender with
  | (.error _, s1) =>
    { out := .error "failed to obtain pending nonce"
      tc := { tc with Chain := s1 }
      log := [.PendingNonceAt sender] }
  | (.ok nonce, s1) =>
    let msg := callMsg sender to_ value data
    match b.EstimateGas s1 msg with
    | (.error _, s2) =>
      { out := .error "failed to obtain gas limit"
        tc := { tc with Chain := s2 }
        log := [.PendingNonceAt sender, .EstimateGas msg] }
    | (.ok gasLimit, s2) =>
      let gasPrice : Int := 1
      let tx := unsignedTx nonce to_ value gasLimit gasPrice data
      let signer := lib.MakeSigner lib.AllEthashProtocolChanges none
      let prv := tc.PrivateKeys sender
      { out := lib.SignTx tx signer prv
        tc := { tc with Chain := s2 }
        log := [.PendingNonceAt sender, .EstimateGas msg, .SignTx tx signer prv] }

/-! ## `NewTestChain` -/

/-- The four locals that the loop of `NewTestChain` fills. -/
structure Setup (Key : Type) where
  alloc : GenesisAlloc
  accounts : List Address
  privateKeys : AddressMap Key
  transactOpts : AddressMap TransactOpts

/-- The locals before the loop: an empty allocation, no account, empty maps. -/
def NewTestChain.init : Setup Key :=
  { alloc := AddressMap.empty, accounts := [], privateKeys := AddressMap.empty,
    transactOpts := AddressMap.empty }

/-- One iteration of the loop of `NewTestChain`, for loop index `i`. -/
def NewTestChain.body (lib : Library Config Signer Key) (st : Setup Key) (i : Nat) :
    Setup Key :=
  let privateKey := lib.GenerateKey i
  let opts := lib.NewKeyedTransactor privateKey
  { privateKeys := st.privateKeys.set opts.From privateKey
    transactOpts := st.transactOpts.set opts.From opts
    accounts := st.accounts ++ [opts.From]
    alloc := st.alloc.set opts.From { Balance := _bigInt "100000000000000000000000000" } }

/-- The loop `for i := 0; i < 128; i++` of `NewTestChain`. -/
def NewTestChain.setup (lib : Library Config Signer Key) : Setup Key :=
  (List.range 128).foldl (NewTestChain.body lib) NewTestChain.init

/-- The function `NewTestChain`. -/
def NewTestChain (lib : Library Config Signer Key) (b : SimulatedBackend σ) :
    TestChain σ Key :=
  let st := NewTestChain.setup lib
  { Chain := b.NewSimulatedBackend st.alloc 8000000
    Accounts := st.accounts
    PrivateKeys := st.privateKeys
    TransactOpts := st.transactOpts }

/-! ## `DeployContract` -/

/-- The method `DeployContract`; `sender` is its parameter `from`.  Reading the
status of a nil receipt is a nil dereference. -/
def DeployContract (lib : Library Config Signer Key) (b : SimulatedBackend σ)
    (tc : TestChain σ Key) (sender : Address) (value : Int) (data : List Nat) :
    Run σ Signer Key Address :=
  let r := CreateSignedTransaction lib b tc sender none value data
  match r.out with
  | .panic => { out := .panic, tc := r.tc, log := r.log }
  | .error err => { out := .error err, tc := r.tc, log := r.log }
  | .ok signedTx =>
    match b.SendTransaction r.tc.Chain signedTx with
    | (some err, s1) =>
      { out := .error err
        tc := { r.tc with Chain := s1 }
        log := r.log ++ [.SendTransaction signedTx] }
    | (none, s1) =>
      let s2 := b.Commit s1
      let txHash := lib.Hash signedTx
      let calls : List (Event Signer Key) :=
        r.log ++ [.SendTransaction signedTx, .Commit, .TransactionReceipt txHash]
      match b.TransactionReceipt s2 txHash with
      | (.error err, s3) =>
        { out := .error err, tc := { r.tc with Chain := s3 }, log := calls }
      | (.ok none, s3) =>
        { out := .panic, tc := { r.tc with Chain := s3 }, log := calls }
      | (.ok (some receipt), s3) =>
        if receipt.Status = 0 then
          { out := .error "contract deployment failed"
            tc := { r.tc with Chain := s3 }
            log := calls }
        else
          { out := .ok receipt.ContractAddress
            tc := { r.tc with Chain := s3 }
            log := calls }

/-! ## Vocabulary for the statements -/

/-- Both queries used by `CreateSignedTransaction` leave the ledger state as it
was: they are read-only. -/
def SimulatedBackend.QueriesReadOnly (b : SimulatedBackend σ) : Prop :=
  (∀ s a, (b.PendingNonceAt s a).2 = s) ∧ (∀ s m, (b.EstimateGas s m).2 = s)

/-- The pending-nonce query for `sender` fails in state `s`. -/
def SimulatedBackend.NonceFails (b : SimulatedBackend σ) (s : σ) (sender : Address) : Prop :=
  ∃ e, (b.PendingNonceAt s sender).1 = .error e

/-- Gas estimation for `msg` fails in state `s`. -/
def SimulatedBackend.GasFails (b : SimulatedBackend σ) (s : σ) (msg : CallMsg) : Prop :=
  ∃ e, (b.EstimateGas s msg).1 = .error e

/-- The call is a `Commit`. -/
def Event.isCommit : Event Signer Key → Bool
  | .Commit => true
  | _ => false

/-- The call is a `SendTransaction`. -/
def Event.isSendTransaction : Event Signer Key → Bool
  | .SendTransaction _ => true
  | _ => false

/-- The call is a `PendingNonceAt`. -/
def Event.isPendingNonceAt : Event Signer Key → Bool
  | .PendingNonceAt _ => true
  | _ => false

/-- The call is an `EstimateGas`. -/
def Event.isEstimateGas : Event Signer Key → Bool
  | .EstimateGas _ => true
  | _ => false

/-- The call is a `TransactionReceipt`. -/
def Event.isTransactionReceipt : Event Signer Key → Bool
  | .TransactionReceipt _ => true
  | _ => false

/-- The call is a `SignTx`. -/
def Event.isSignTx : Event Signer Key → Bool
  | .SignTx _ _ _ => true
  | _ => false

/-- The call goes to the ledger (every call but the signing one). -/
def Event.isLedgerCall : Event Signer Key → Bool
  | .SignTx _ _ _ => false
  | _ => true

/-- The signer that `CreateSignedTransaction` builds:
`types.MakeSigner(params.AllEthashProtocolChanges, nil)`. -/
def staticSigner (lib : Library Config Signer Key) : Signer :=
  lib.MakeSigner lib.AllEthashProtocolChanges none

/-- The transaction `t` is one that signing with the key registered for `sender`
in `tc` can return: a submission of `t` is a submission from `sender`. -/
def SignedBy (lib : Library Config Signer Key) (tc : TestChain σ Key) (sender : Address)
    (t : Transaction) : Prop :=
  ∃ u, lib.SignTx u (staticSigner lib) (tc.PrivateKeys sender) = .ok t

/-- On this ledger the pending nonce of `sender` advances by one on each accepted
submission of a transaction signed for `sender`. -/
def NonceAdvances (lib : Library Config Signer Key) (b : SimulatedBackend σ)
    (tc : TestChain σ Key) (sender : Address) : Prop :=
  ∀ s t s1 n, SignedBy lib tc sender t → b.SendTransaction s t = (none, s1) →
    (b.PendingNonceAt s sender).1 = .ok n → (b.PendingNonceAt s1 sender).1 = .ok (n + 1)

/-- The address that go-ethereum derives from a key: the `From` of the
transactor made for that key, which is how `NewTestChain` obtains it. -/
def addressOf (lib : Library Config Signer Key) (key : Key) : Address :=
  (lib.NewKeyedTransactor key).From

/-- The address of the `i`-th generated key. -/
def generatedAddress (lib : Library Config Signer Key) (i : Nat) : Address :=
  addressOf lib (lib.GenerateKey i)

/-- The premise under which `crypto.GenerateKey` is used: the 128 draws are
independent, so no two of them return the same key, and no two of the keys
drawn derive the same address. -/
def Library.IndependentKeys (lib : Library Config Signer Key) : Prop :=
  (∀ i, i < 128 → ∀ j, j < 128 → lib.GenerateKey i = lib.GenerateKey j → i = j) ∧
  (∀ i, i < 128 → ∀ j, j < 128 →
    addressOf lib (lib.GenerateKey i) = addressOf lib (lib.GenerateKey j) →
    lib.GenerateKey i = lib.GenerateKey j)

/-- Every listed account has its key, its signing context and its starting
balance recorded under its own address. -/
def Setup.Registered (lib : Library Config Signer Key) (st : Setup Key) : Prop :=
  ∀ a ∈ st.accounts,
    (∃ k, st.privateKeys a = some k ∧ addressOf lib k = a) ∧
    (∃ o, st.transactOpts a = some o ∧ o.From = a) ∧
    st.alloc a = some { Balance := _bigInt "100000000000000000000000000" }

end Code

/-! ## A small concrete ledger and library

Used to exhibit the statements below on concrete inputs. -/

/-- A ledger whose state is the number of accepted submissions.  The pending
nonce of every account but account 0 is that number; the nonce of account 0
cannot be read; gas estimation rejects an empty payload; a submission with a
negative value is rejected; the receipt for hash `h` has status `h % 2`, and
there is none for hash 0. -/
def demoBackend : SimulatedBackend Nat where
  NewSimulatedBackend := fun _ _ => 0
  PendingNonceAt := fun s a => (if a = 0 then .error "no such account" else .ok s, s)
  EstimateGas := fun s m =>
    (if m.Data = [] then .error "execution reverted" else .ok (21000 + m.Data.length), s)
  SendTransaction := fun s tx =>
    if tx.Amount < 0 then (some "insufficient funds", s) else (none, s + 1)
  Commit := fun s => s
  TransactionReceipt := fun s h =>
    (if h = 0 then .ok none else .ok (some { Status := h % 2, ContractAddress := 1000 + h }), s)

/-- A library whose keys are numbers, with key `k` owning address `k + 100`.
Signing stores the key in `R` and `S`, and panics on a nil key, as
`crypto.Sign` does when it dereferences the key it is given.  The hash of a
transaction is its nonce plus its gas limit. -/
def demoLibrary : Library Unit Unit Nat where
  AllEthashProtocolChanges := ()
  MakeSigner := fun _ _ => ()
  SignTx := fun tx _ prv =>
    match prv with
    | none => .panic
    | some k => .ok { tx with V := 27, R := k, S := k }
  Hash := fun tx => tx.AccountNonce + tx.GasLimit
  GenerateKey := fun i => i + 1
  NewKeyedTransactor := fun k => { From := k + 100 }

/-- A chain over `demoBackend` with the two accounts 101 and 102, holding keys 1
and 2, after `n` accepted submissions. -/
def demoChain (n : Nat) : TestChain Nat Nat where
  Chain := n
  Accounts := [101, 102]
  PrivateKeys := (AddressMap.empty.set 101 1).set 102 2
  TransactOpts := (AddressMap.empty.set 101 { From := 101 }).set 102 { From := 102 }

/-! ## The three paths of `CreateSignedTransaction` -/

section Paths

variable {Config Signer Key σ : Type}

theorem createSignedTransaction_nonce_error (lib : Library Config Signer Key)
    (b : SimulatedBackend σ) (tc : TestChain σ Key) (sender : Address)
    (to_ : Option Address) (value : Int) (data : List Nat) (e : Error) (s1 : σ)
    (hn : b.PendingNonceAt tc.Chain sender = (.error e, s1)) :
    CreateSignedTransaction lib b tc sender to_ value data =
      { out := .error "failed to obtain pending nonce"
        tc := { tc with Chain := s1 }
        log := [.PendingNonceAt sender] } := by
  simp only [CreateSignedTransaction, hn]

theorem createSignedTransaction_gas_error (lib : Library Config Signer Key)
    (b : SimulatedBackend σ) (tc : TestChain σ Key) (sender : Address)
    (to_ : Option Address) (value : Int) (data : List Nat) (n : Nat) (e : Error) (s1 s2 : σ)
    (hn : b.PendingNonceAt tc.Chain sender = (.ok n, s1))
    (hg : b.EstimateGas s1 (callMsg sender to_ value data) = (.error e, s2)) :
    CreateSignedTransaction lib b tc sender to_ value data =
      { out := .error "failed to obtain gas limit"
        tc := { tc with Chain := s2 }
        log := [.PendingNonceAt sender, .EstimateGas (callMsg sender to_ value data)] } := by
  simp only [CreateSignedTransaction, hn, hg]

theorem createSignedTransaction_sign (lib : Library Config Signer Key)
    (b : SimulatedBackend σ) (tc : TestChain σ Key) (sender : Address)
    (to_ : Option Address) (value : Int) (data : List Nat) (n g : Nat) (s1 s2 : σ)
    (hn : b.PendingNonceAt tc.Chain sender = (.ok n, s1))
    (hg : b.EstimateGas s1 (callMsg sender to_ value data) = (.ok g, s2)) :
    CreateSignedTransaction lib b tc sender to_ value data =
      { out := lib.SignTx (unsignedTx n to_ value g 1 data) (staticSigner lib)
          (tc.PrivateKeys sender)
        tc := { tc with Chain := s2 }
        log := [.PendingNonceAt sender, .EstimateGas (callMsg sender to_ value data),
          .SignTx (unsignedTx n to_ value g 1 data) (staticSigner lib)
            (tc.PrivateKeys sender)] } := by
  simp only [CreateSignedTransaction, hn, hg, staticSigner]

/-- Every run of `CreateSignedTransaction` takes one of its three paths. -/
theorem createSignedTransaction_cases
    (b : SimulatedBackend σ) (tc : TestChain σ Key) (sender : Address)
    (to_ : Option Address) (value : Int) (data : List Nat) :
    (∃ e s1, b.PendingNonceAt tc.Chain sender = (.error e, s1)) ∨
    (∃ n s1 e s2, b.PendingNonceAt tc.Chain sender = (.ok n, s1) ∧
      b.EstimateGas s1 (callMsg sender to_ value data) = (.error e, s2)) ∨
    (∃ n s1 g s2, b.PendingNonceAt tc.Chain sender = (.ok n, s1) ∧
      b.EstimateGas s1 (callMsg sender to_ value data) = (.ok g, s2)) := by
  rcases hn : b.PendingNonceAt tc.Chain sender with ⟨rn, s1⟩
  cases rn with
  | error e => exact Or.inl ⟨e, s1, rfl⟩
  | ok n =>
    rcases hg : b.EstimateGas s1 (callMsg sender to_ value data) with ⟨rg, s2⟩
    cases rg with
    | error e => exact Or.inr (Or.inl ⟨n, s1, e, s2, rfl, hg⟩)
    | ok g => exact Or.inr (Or.inr ⟨n, s1, g, s2, rfl, hg⟩)

theorem unsignedTx_fields (n : Nat) (to_ : Option Address) (value : Int) (g : Nat)
    (p : Int) (data : List Nat) :
    unsignedTx n to_ value g p data =
      { AccountNonce := n, Price := p, GasLimit := g, Recipient := to_, Amount := value,
        Payload := data, V := 0, R := 0, S := 0 } := by
  cases to_ <;> rfl

/-- What a run of `CreateSignedTransaction` leaves unchanged and which calls it
makes; the frame statement, shared by the claims below. -/
theorem createSignedTransaction_effects (lib : Library Config Signer Key)
    (b : SimulatedBackend σ) (tc : TestChain σ Key) (sender : Address)
    (to_ : Option Address) (value : Int) (data : List Nat) :
    (CreateSignedTransaction lib b tc sender to_ value data).tc.Accounts = tc.Accounts ∧
    (CreateSignedTransaction lib b tc sender to_ value data).tc.PrivateKeys =
      tc.PrivateKeys ∧
    (CreateSignedTransaction lib b tc sender to_ value data).tc.TransactOpts =
      tc.TransactOpts ∧
    ((CreateSignedTransaction lib b tc sender to_ value data).log.filter Event.isLedgerCall <+:
      [.PendingNonceAt sender, .EstimateGas (callMsg sender to_ value data)]) ∧
    (CreateSignedTransaction lib b tc sender to_ value data).log.countP
      Event.isPendingNonceAt ≤ 1 ∧
    (CreateSignedTransaction lib b tc sender to_ value data).log.countP
      Event.isEstimateGas ≤ 1 ∧
    (CreateSignedTransaction lib b tc sender to_ value data).log.countP
      Event.isSendTransaction = 0 ∧
    (CreateSignedTransaction lib b tc sender to_ value data).log.countP
      Event.isCommit = 0 ∧
    (CreateSignedTransaction lib b tc sender to_ value data).log.countP
      Event.isTransactionReceipt = 0 ∧
    (b.QueriesReadOnly →
      (CreateSignedTransaction lib b tc sender to_ value data).tc = tc) := by
  rcases createSignedTransaction_cases b tc sender to_ value data with
    ⟨e, s1, hn⟩ | ⟨n, s1, e, s2, hn, hg⟩ | ⟨n, s1, g, s2, hn, hg⟩
  · rw [createSignedTransaction_nonce_error lib b tc sender to_ value data e s1 hn]
    refine ⟨rfl, rfl, rfl, ?_, ?_, ?_, rfl, rfl, rfl, ?_⟩
    · exact ⟨[.EstimateGas (callMsg sender to_ value data)], rfl⟩
    · simp [List.countP_cons, Event.isPendingNonceAt]
    · simp [List.countP_cons, Event.isEstimateGas]
    · intro hro
      have h1 : s1 = tc.Chain := by
        have := hro.1 tc.Chain sender
        rw [hn] at this
        exact this
      subst h1
      rfl
  · rw [createSignedTransaction_gas_error lib b tc sender to_ value data n e s1 s2 hn hg]
    refine ⟨rfl, rfl, rfl, ?_, ?_, ?_, rfl, rfl, rfl, ?_⟩
    · exact ⟨[], rfl⟩
    · simp [List.countP_cons, Event.isPendingNonceAt]
    · simp [List.countP_cons, Event.isEstimateGas]
    · intro hro
      have h1 : s1 = tc.Chain := by
        have := hro.1 tc.Chain sender
        rw [hn] at this
        exact this
      have h2 : s2 = s1 := by
        have := hro.2 s1 (callMsg sender to_ value data)
        rw [hg] at this
        exact this
      subst h2
      subst h1
      rfl
  · rw [createSignedTransaction_sign lib b tc sender to_ value data n g s1 s2 hn hg]
    refine ⟨rfl, rfl, rfl, ?_, ?_, ?_, rfl, rfl, rfl, ?_⟩
    · exact ⟨[], rfl⟩
    · simp [List.countP_cons, Event.isPendingNonceAt]
    · simp [List.countP_cons, Event.isEstimateGas]
    · intro hro
      have h1 : s1 = tc.Chain := by
        have := hro.1 tc.Chain sender
        rw [hn] at this
        exact this
      have h2 : s2 = s1 := by
        have := hro.2 s1 (callMsg sender to_ value data)
        rw [hg] at this
        exact this
      subst h2
      subst h1
      rfl

/-- A run of `CreateSignedTransaction` makes at most one signing call. -/
theorem createSignedTransaction_sign_count (lib : Library Config Signer Key)
    (b : SimulatedBackend σ) (tc : TestChain σ Key) (sender : Address)
    (to_ : Option Address) (value : Int) (data : List Nat) :
    (CreateSignedTransaction lib b tc sender to_ value data).log.countP Event.isSignTx ≤ 1 := by
  rcases createSignedTransaction_cases b tc sender to_ value data with
    ⟨e, s1, hn⟩ | ⟨n, s1, e, s2, hn, hg⟩ | ⟨n, s1, g, s2, hn, hg⟩
  · rw [createSignedTransaction_nonce_error lib b tc sender to_ value data e s1 hn]
    simp [List.countP_cons, Event.isSignTx]
  · rw [createSignedTransaction_gas_error lib b tc sender to_ value data n e s1 s2 hn hg]
    simp [List.countP_cons, Event.isSignTx]
  · rw [createSignedTransaction_sign lib b tc sender to_ value data n g s1 s2 hn hg]
    simp [List.countP_cons, Event.isSignTx]

/-! ## The paths of `DeployContract` -/

theorem deployContract_build_error (lib : Library Config Signer Key)
    (b : SimulatedBackend σ) (tc : TestChain σ Key) (sender : Address) (value : Int)
    (data : List Nat) (e : Error)
    (hc : (CreateSignedTransaction lib b tc sender none value data).out = .error e) :
    DeployContract lib b tc sender value data =
      { out := .error e
        tc := (CreateSignedTransaction lib b tc sender none value data).tc
        log := (CreateSignedTransaction lib b tc sender none value data).log } := by
  simp only [DeployContract, hc]

theorem deployContract_build_panic (lib : Library Config Signer Key)
    (b : SimulatedBackend σ) (tc : TestChain σ Key) (sender : Address) (value : Int)
    (data : List Nat)
    (hc : (CreateSignedTransaction lib b tc sender none value data).out = .panic) :
    DeployContract lib b tc sender value data =
      { out := .panic
        tc := (CreateSignedTransaction lib b tc sender none value data).tc
        log := (CreateSignedTransaction lib b tc sender none value data).log } := by
  simp only [DeployContract, hc]

theorem deployContract_send_error (lib : Library Config Signer Key)
    (b : SimulatedBackend σ) (tc : TestChain σ Key) (sender : Address) (value : Int)
    (data : List Nat) (signedTx : Transaction) (e : Error) (s1 : σ)
    (hc : (CreateSignedTransaction lib b tc sender none value data).out = .ok signedTx)
    (hs : b.SendTransaction (CreateSignedTransaction lib b tc sender none value data).tc.Chain
      signedTx = (some e, s1)) :
    DeployContract lib b tc sender value data =
      { out := .error e
        tc := { (CreateSignedTransaction lib b tc sender none value data).tc with Chain := s1 }
        log := (CreateSignedTransaction lib b tc sender none value data).log ++
          [.SendTransaction signedTx] } := by
  simp only [DeployContract, hc, hs]

theorem deployContract_receipt_error (lib : Library Config Signer Key)
    (b : SimulatedBackend σ) (tc : TestChain σ Key) (sender : Address) (value : Int)
    (data : List Nat) (signedTx : Transaction) (e : Error) (s1 s3 : σ)
    (hc : (CreateSignedTransaction lib b tc sender none value data).out = .ok signedTx)
    (hs : b.SendTransaction (CreateSignedTransaction lib b tc sender none value data).tc.Chain
      signedTx = (none, s1))
    (hr : b.TransactionReceipt (b.Commit s1) (lib.Hash signedTx) = (.error e, s3)) :
    DeployContract lib b tc sender value data =
      { out := .error e
        tc := { (CreateSignedTransaction lib b tc sender none value data).tc with Chain := s3 }
        log := (CreateSignedTransaction lib b tc sender none value data).log ++
          [.SendTransaction signedTx, .Commit, .TransactionReceipt (lib.Hash signedTx)] } := by
  simp only [DeployContract, hc, hs, hr]

theorem deployContract_receipt_nil (lib : Library Config Signer Key)
    (b : SimulatedBackend σ) (tc : TestChain σ Key) (sender : Address) (value : Int)
    (data : List Nat) (signedTx : Transaction) (s1 s3 : σ)
    (hc : (CreateSignedTransaction lib b tc sender none value data).out = .ok signedTx)
    (hs : b.SendTransaction (CreateSignedTransaction lib b tc sender none value data).tc.Chain
      signedTx = (none, s1))
    (hr : b.TransactionReceipt (b.Commit s1) (lib.Hash signedTx) = (.ok none, s3)) :
    DeployContract lib b tc sender value data =
      { out := .panic
        tc := { (CreateSignedTransaction lib b tc sender none value data).tc with Chain := s3 }
        log := (CreateSignedTransaction lib b tc sender none value data).log ++
          [.SendTransaction signedTx, .Commit, .TransactionReceipt (lib.Hash signedTx)] } := by
  simp only [DeployContract, hc, hs, hr]

theorem deployContract_receipt (lib : Library Config Signer Key)
    (b : SimulatedBackend σ) (tc : TestChain σ Key) (sender : Address) (value : Int)
    (data : List Nat) (signedTx : Transaction) (receipt : Receipt) (s1 s3 : σ)
    (hc : (CreateSignedTransaction lib b tc sender none value data).out = .ok signedTx)
    (hs : b.SendTransaction (CreateSignedTransaction lib b tc sender none value data).tc.Chain
      signedTx = (none, s1))
    (hr : b.TransactionReceipt (b.Commit s1) (lib.Hash signedTx) = (.ok (some receipt), s3)) :
    DeployContract lib b tc sender value data =
      { out := if receipt.Status = 0 then .error "contract deployment failed"
          else .ok receipt.ContractAddress
        tc := { (CreateSignedTransaction lib b tc sender none value data).tc with Chain := s3 }
        log := (CreateSignedTransaction lib b tc sender none value data).log ++
          [.SendTransaction signedTx, .Commit, .TransactionReceipt (lib.Hash signedTx)] } := by
  simp only [DeployContract, hc, hs, hr]
  split <;> rfl

/-- The calls of `DeployContract` are those of `CreateSignedTransaction` followed
by nothing when building did not return a transaction, by the submission alone
when the ledger rejected it, and by submission, one commit and one receipt query
when the ledger accepted it. -/
theorem deployContract_log (lib : Library Config Signer Key)
    (b : SimulatedBackend σ) (tc : TestChain σ Key) (sender : Address) (value : Int)
    (data : List Nat) :
    ((∀ t, (CreateSignedTransaction lib b tc sender none value data).out ≠ .ok t) ∧
      (DeployContract lib b tc sender value data).log =
        (CreateSignedTransaction lib b tc sender none value data).log) ∨
    (∃ t e s1, (CreateSignedTransaction lib b tc sender none value data).out = .ok t ∧
      b.SendTransaction (CreateSignedTransaction lib b tc sender none value data).tc.Chain t =
        (some e, s1) ∧
      (DeployContract lib b tc sender value data).log =
        (CreateSignedTransaction lib b tc sender none value data).log ++
          [.SendTransaction t]) ∨
    (∃ t s1, (CreateSignedTransaction lib b tc sender none value data).out = .ok t ∧
      b.SendTransaction (CreateSignedTransaction lib b tc sender none value data).tc.Chain t =
        (none, s1) ∧
      (DeployContract lib b tc sender value data).log =
        (CreateSignedTransaction lib b tc sender none value data).log ++
          [.SendTransaction t, .Commit, .TransactionReceipt (lib.Hash t)]) := by
  cases hc : (CreateSignedTransaction lib b tc sender none value data).out with
  | panic =>
    refine Or.inl ⟨fun t h => (by cases h), ?_⟩
    rw [deployContract_build_panic lib b tc sender value data hc]
  | error e =>
    refine Or.inl ⟨fun t h => (by cases h), ?_⟩
    rw [deployContract_build_error lib b tc sender value data e hc]
  | ok t =>
    rcases hs : b.SendTransaction
      (CreateSignedTransaction lib b tc sender none value data).tc.Chain t with ⟨re, s1⟩
    cases re with
    | some e =>
      refine Or.inr (Or.inl ⟨t, e, s1, rfl, hs, ?_⟩)
      rw [deployContract_send_error lib b tc sender value data t e s1 hc hs]
    | none =>
      refine Or.inr (Or.inr ⟨t, s1, rfl, hs, ?_⟩)
      rcases hr : b.TransactionReceipt (b.Commit s1) (lib.Hash t) with ⟨rr, s3⟩
      cases rr with
      | error e =>
        rw [deployContract_receipt_error lib b tc sender value data t e s1 s3 hc hs hr]
      | ok ro =>
        cases ro with
        | none =>
          rw [deployContract_receipt_nil lib b tc sender value data t s1 s3 hc hs hr]
        | some receipt =>
          rw [deployContract_receipt lib b tc sender value data t receipt s1 s3 hc hs hr]

/-! ## The loop of `NewTestChain` -/

theorem bigInt_balance :
    _bigInt "100000000000000000000000000" = some 100000000000000000000000000 := by
  decide

theorem setup_foldl_accounts (lib : Library Config Signer Key) (l : List Nat)
    (st : Setup Key) :
    (l.foldl (NewTestChain.body lib) st).accounts =
      st.accounts ++ l.map (generatedAddress lib) := by
  induction l generalizing st with
  | nil => simp
  | cons i l ih =>
    rw [List.foldl_cons, ih]
    simp [NewTestChain.body, generatedAddress, addressOf]

theorem setup_body_registered (lib : Library Config Signer Key) (st : Setup Key) (i : Nat)
    (h : st.Registered lib) : (NewTestChain.body lib st i).Registered lib := by
  intro a ha
  simp only [NewTestChain.body, List.mem_append, List.mem_singleton] at ha
  by_cases hEq : a = (lib.NewKeyedTransactor (lib.GenerateKey i)).From
  · subst hEq
    refine ⟨⟨lib.GenerateKey i, ?_, rfl⟩, ⟨lib.NewKeyedTransactor (lib.GenerateKey i), ?_, rfl⟩,
      ?_⟩
    · simp [NewTestChain.body, AddressMap.set]
    · simp [NewTestChain.body, AddressMap.set]
    · simp [NewTestChain.body, AddressMap.set]
  · have hOld : a ∈ st.accounts := by
      rcases ha with ha | ha
      · exact ha
      · exact absurd ha hEq
    obtain ⟨⟨k, hk, hka⟩, ⟨o, ho, hoa⟩, hal⟩ := h a hOld
    refine ⟨⟨k, ?_, hka⟩, ⟨o, ?_, hoa⟩, ?_⟩
    · simp [NewTestChain.body, AddressMap.set, hEq, hk]
    · simp [NewTestChain.body, AddressMap.set, hEq, ho]
    · simp [NewTestChain.body, AddressMap.set, hEq, hal]

theorem setup_foldl_registered (lib : Library Config Signer Key) (l : List Nat)
    (st : Setup Key) (h : st.Registered lib) :
    (l.foldl (NewTestChain.body lib) st).Registered lib := by
  induction l generalizing st with
  | nil => exact h
  | cons i l ih =>
    rw [List.foldl_cons]
    exact ih _ (setup_body_registered lib st i h)

theorem setup_registered (lib : Library Config Signer Key) :
    (NewTestChain.setup lib).Registered lib := by
  apply setup_foldl_registered
  intro a ha
  simp [NewTestChain.init] at ha

theorem setup_accounts (lib : Library Config Signer Key) :
    (NewTestChain.setup lib).accounts = (List.range 128).map (generatedAddress lib) := by
  rw [NewTestChain.setup, setup_foldl_accounts]
  simp [NewTestChain.init]

end Paths

/-! ## Claims about `CreateSignedTransaction` -/

section Claims

variable {Config Signer Key σ : Type}

/-- C2: when the pending-nonce query returns `n` and the gas estimate returns `g`,
the transaction that `CreateSignedTransaction` builds and hands to `SignTx` (the
only signing call it makes, whose result it returns) has nonce `n`, gas limit
`g`, gas price exactly 1, the given value and the given payload, and its
recipient field is the given optional recipient: it is a contract creation
(`NewContractCreation`, no recipient) when the recipient is nil, and
`NewTransaction` to exactly that recipient otherwise. -/
theorem createSignedTransaction_builds (lib : Library Config Signer Key)
    (b : SimulatedBackend σ) (tc : TestChain σ Key) (sender : Address)
    (to_ : Option Address) (value : Int) (data : List Nat) (n g : Nat) (s1 s2 : σ)
    (hn : b.PendingNonceAt tc.Chain sender = (.ok n, s1))
    (hg : b.EstimateGas s1 (callMsg sender to_ value data) = (.ok g, s2)) :
    ∃ tx : Transaction,
      (CreateSignedTransaction lib b tc sender to_ value data).log =
        [.PendingNonceAt sender, .EstimateGas (callMsg sender to_ value data),
          .SignTx tx (staticSigner lib) (tc.PrivateKeys sender)] ∧
      (CreateSignedTransaction lib b tc sender to_ value data).out =
        lib.SignTx tx (staticSigner lib) (tc.PrivateKeys sender) ∧
      tx.AccountNonce = n ∧ tx.GasLimit = g ∧ tx.Price = 1 ∧ tx.Amount = value ∧
      tx.Payload = data ∧ tx.Recipient = to_ ∧
      (to_ = none → tx = NewContractCreation n value g 1 data) ∧
      (∀ r, to_ = some r → tx = NewTransaction n r value g 1 data) := by
  refine ⟨unsignedTx n to_ value g 1 data, ?_, ?_, ?_⟩
  · rw [createSignedTransaction_sign lib b tc sender to_ value data n g s1 s2 hn hg]
  · rw [createSignedTransaction_sign lib b tc sender to_ value data n g s1 s2 hn hg]
  · rw [unsignedTx_fields]
    refine ⟨rfl, rfl, rfl, rfl, rfl, rfl, ?_, ?_⟩
    · intro h; subst h; rfl
    · intro r h; subst h; rfl

/-- C2 on the demo ledger: account 101, recipient 7, value 3, payload `[1, 2]`
after five accepted submissions. -/
theorem createSignedTransaction_builds_witness :
    ∃ tx : Transaction,
      (CreateSignedTransaction demoLibrary demoBackend (demoChain 5) 101 (some 7) 3 [1, 2]).log =
        [.PendingNonceAt 101, .EstimateGas (callMsg 101 (some 7) 3 [1, 2]),
          .SignTx tx (staticSigner demoLibrary) ((demoChain 5).PrivateKeys 101)] ∧
      (CreateSignedTransaction demoLibrary demoBackend (demoChain 5) 101 (some 7) 3 [1, 2]).out =
        demoLibrary.SignTx tx (staticSigner demoLibrary) ((demoChain 5).PrivateKeys 101) ∧
      tx.AccountNonce = 5 ∧ tx.GasLimit = 21002 ∧ tx.Price = 1 ∧ tx.Amount = 3 ∧
      tx.Payload = [1, 2] ∧ tx.Recipient = some 7 ∧
      (some 7 = none → tx = NewContractCreation 5 3 21002 1 [1, 2]) ∧
      (∀ r, some 7 = some r → tx = NewTransaction 5 r 3 21002 1 [1, 2]) :=
  createSignedTransaction_builds demoLibrary demoBackend (demoChain 5) 101 (some 7) 3 [1, 2]
    5 21002 5 5 rfl rfl

/-- C3: for a sender that has a key in the registry, and a signing library that
succeeds with that key, `CreateSignedTransaction` returns an error (and so no
transaction) exactly when the pending-nonce query fails or gas estimation (on
the state the nonce query leaves) fails.  When the nonce query fails the error is
"failed to obtain pending nonce" and the nonce query is the only call made: gas
estimation is not attempted and nothing is built or signed.  When the nonce
query succeeds and gas estimation fails the error is "failed to obtain gas
limit". -/
theorem createSignedTransaction_error_iff (lib : Library Config Signer Key)
    (b : SimulatedBackend σ) (tc : TestChain σ Key) (sender : Address)
    (to_ : Option Address) (value : Int) (data : List Nat) (k : Key)
    (hk : tc.PrivateKeys sender = some k)
    (hsign : ∀ tx, ∃ t, lib.SignTx tx (staticSigner lib) (some k) = .ok t) :
    ((∃ e, (CreateSignedTransaction lib b tc sender to_ value data).out = .error e) ↔
      (b.NonceFails tc.Chain sender ∨
        b.GasFails (b.PendingNonceAt tc.Chain sender).2 (callMsg sender to_ value data))) ∧
    ((CreateSignedTransaction lib b tc sender to_ value data).out.val? = none ↔
      (∃ e, (CreateSignedTransaction lib b tc sender to_ value data).out = .error e)) ∧
    (b.NonceFails tc.Chain sender →
      (CreateSignedTransaction lib b tc sender to_ value data).out =
          .error "failed to obtain pending nonce" ∧
        (CreateSignedTransaction lib b tc sender to_ value data).log =
          [.PendingNonceAt sender]) ∧
    (¬ b.NonceFails tc.Chain sender →
      b.GasFails (b.PendingNonceAt tc.Chain sender).2 (callMsg sender to_ value data) →
      (CreateSignedTransaction lib b tc sender to_ value data).out =
        .error "failed to obtain gas limit") := by
  rcases createSignedTransaction_cases b tc sender to_ value data with
    ⟨e, s1, hn⟩ | ⟨n, s1, e, s2, hn, hg⟩ | ⟨n, s1, g, s2, hn, hg⟩
  · have hf : b.NonceFails tc.Chain sender := ⟨e, by rw [hn]⟩
    rw [createSignedTransaction_nonce_error lib b tc sender to_ value data e s1 hn]
    refine ⟨⟨fun _ => Or.inl hf, fun _ => ⟨_, rfl⟩⟩, ⟨fun _ => ⟨_, rfl⟩, fun _ => rfl⟩,
      fun _ => ⟨rfl, rfl⟩, fun h => absurd hf h⟩
  · have hnf : ¬ b.NonceFails tc.Chain sender := by
      rintro ⟨e1, h1⟩
      rw [hn] at h1
      cases h1
    have hgf : b.GasFails (b.PendingNonceAt tc.Chain sender).2
        (callMsg sender to_ value data) := ⟨e, by rw [hn]; simp only [hg]⟩
    rw [createSignedTransaction_gas_error lib b tc sender to_ value data n e s1 s2 hn hg]
    refine ⟨⟨fun _ => Or.inr hgf, fun _ => ⟨_, rfl⟩⟩, ⟨fun _ => ⟨_, rfl⟩, fun _ => rfl⟩,
      fun h => absurd h hnf, fun _ _ => rfl⟩
  · have hnf : ¬ b.NonceFails tc.Chain sender := by
      rintro ⟨e1, h1⟩
      rw [hn] at h1
      cases h1
    have hgf : ¬ b.GasFails (b.PendingNonceAt tc.Chain sender).2
        (callMsg sender to_ value data) := by
      rintro ⟨e1, h1⟩
      rw [hn] at h1
      simp only [hg] at h1
      cases h1
    obtain ⟨t, ht⟩ := hsign (unsignedTx n to_ value g 1 data)
    rw [createSignedTransaction_sign lib b tc sender to_ value data n g s1 s2 hn hg, hk]
    simp only [ht]
    refine ⟨⟨?_, ?_⟩, ⟨?_, ?_⟩, fun h => absurd h hnf, fun _ h => absurd h hgf⟩
    · rintro ⟨e1, h1⟩
      cases h1
    · rintro (h | h)
      · exact absurd h hnf
      · exact absurd h hgf
    · intro h
      cases h
    · rintro ⟨e1, h1⟩
      cases h1

/-- C3 on the demo ledger, for the registered sender 101 and an empty payload,
for which gas estimation fails. -/
theorem createSignedTransaction_error_iff_witness :
    ((∃ e, (CreateSignedTransaction demoLibrary demoBackend (demoChain 5) 101 none 0 []).out =
        .error e) ↔
      (demoBackend.NonceFails (demoChain 5).Chain 101 ∨
        demoBackend.GasFails (demoBackend.PendingNonceAt (demoChain 5).Chain 101).2
          (callMsg 101 none 0 []))) ∧
    ((CreateSignedTransaction demoLibrary demoBackend (demoChain 5) 101 none 0 []).out.val? =
        none ↔
      (∃ e, (CreateSignedTransaction demoLibrary demoBackend (demoChain 5) 101 none 0 []).out =
        .error e)) ∧
    (demoBackend.NonceFails (demoChain 5).Chain 101 →
      (CreateSignedTransaction demoLibrary demoBackend (demoChain 5) 101 none 0 []).out =
          .error "failed to obtain pending nonce" ∧
        (CreateSignedTransaction demoLibrary demoBackend (demoChain 5) 101 none 0 []).log =
          [.PendingNonceAt 101]) ∧
    (¬ demoBackend.NonceFails (demoChain 5).Chain 101 →
      demoBackend.GasFails (demoBackend.PendingNonceAt (demoChain 5).Chain 101).2
        (callMsg 101 none 0 []) →
      (CreateSignedTransaction demoLibrary demoBackend (demoChain 5) 101 none 0 []).out =
        .error "failed to obtain gas limit") :=
  createSignedTransaction_error_iff demoLibrary demoBackend (demoChain 5) 101 none 0 [] 1
    rfl (fun _ => ⟨_, rfl⟩)

/-- C4, the claim refuted: on the demo chain account 555 has no key in the
registry, both queries succeed, and `CreateSignedTransaction` returns no error at
all: it calls `SignTx` with the nil key and ends as that call ends (here in a
panic).  For account 0, which has no key either, the error returned is the one
of the failed nonce query. -/
theorem createSignedTransaction_unknown_key_counterexample :
    (demoChain 5).PrivateKeys 555 = none ∧
    (CreateSignedTransaction demoLibrary demoBackend (demoChain 5) 555 none 0 [1, 2]).out =
      .panic ∧
    (CreateSignedTransaction demoLibrary demoBackend (demoChain 5) 555 none 0 [1, 2]).out.err? =
      none ∧
    Event.SignTx (unsignedTx 5 none 0 21002 1 [1, 2]) () none ∈
      (CreateSignedTransaction demoLibrary demoBackend (demoChain 5) 555 none 0 [1, 2]).log ∧
    (demoChain 5).PrivateKeys 0 = none ∧
    (CreateSignedTransaction demoLibrary demoBackend (demoChain 5) 0 none 0 [1, 2]).out =
      .error "failed to obtain pending nonce" := by
  refine ⟨rfl, rfl, rfl, ?_, rfl, rfl⟩
  decide

/-- C4, amended: for a sender that is not a key of `PrivateKeys`,
`CreateSignedTransaction` makes no registry check and has no error of its own
for the missing key.  It returns "failed to obtain pending nonce" when the nonce
query fails and "failed to obtain gas limit" when gas estimation fails, as for
any sender; when both succeed it calls `SignTx` with the nil key and its outcome
is the outcome of that call. -/
theorem createSignedTransaction_unknown_key (lib : Library Config Signer Key)
    (b : SimulatedBackend σ) (tc : TestChain σ Key) (sender : Address)
    (to_ : Option Address) (value : Int) (data : List Nat)
    (hk : tc.PrivateKeys sender = none) :
    (∀ e s1, b.PendingNonceAt tc.Chain sender = (.error e, s1) →
      (CreateSignedTransaction lib b tc sender to_ value data).out =
        .error "failed to obtain pending nonce") ∧
    (∀ n s1 e s2, b.PendingNonceAt tc.Chain sender = (.ok n, s1) →
      b.EstimateGas s1 (callMsg sender to_ value data) = (.error e, s2) →
      (CreateSignedTransaction lib b tc sender to_ value data).out =
        .error "failed to obtain gas limit") ∧
    (∀ n s1 g s2, b.PendingNonceAt tc.Chain sender = (.ok n, s1) →
      b.EstimateGas s1 (callMsg sender to_ value data) = (.ok g, s2) →
      Event.SignTx (unsignedTx n to_ value g 1 data) (staticSigner lib) none ∈
          (CreateSignedTransaction lib b tc sender to_ value data).log ∧
        (CreateSignedTransaction lib b tc sender to_ value data).out =
          lib.SignTx (unsignedTx n to_ value g 1 data) (staticSigner lib) none) := by
  refine ⟨?_, ?_, ?_⟩
  · intro e s1 hn
    rw [createSignedTransaction_nonce_error lib b tc sender to_ value data e s1 hn]
  · intro n s1 e s2 hn hg
    rw [createSignedTransaction_gas_error lib b tc sender to_ value data n e s1 s2 hn hg]
  · intro n s1 g s2 hn hg
    rw [createSignedTransaction_sign lib b tc sender to_ value data n g s1 s2 hn hg, hk]
    exact ⟨by simp, rfl⟩

/-- C4 amended, on the demo chain for the unregistered account 555. -/
theorem createSignedTransaction_unknown_key_witness :
    Event.SignTx (unsignedTx 5 none 0 21002 1 [1, 2]) (staticSigner demoLibrary) none ∈
        (CreateSignedTransaction demoLibrary demoBackend (demoChain 5) 555 none 0 [1, 2]).log ∧
      (CreateSignedTransaction demoLibrary demoBackend (demoChain 5) 555 none 0 [1, 2]).out =
        demoLibrary.SignTx (unsignedTx 5 none 0 21002 1 [1, 2]) (staticSigner demoLibrary)
          none :=
  (createSignedTransaction_unknown_key demoLibrary demoBackend (demoChain 5) 555 none 0
    [1, 2] rfl).2.2 5 5 21002 5 rfl rfl

/-- C7: on every path `CreateSignedTransaction` leaves `Accounts`, `PrivateKeys`
and `TransactOpts` as they were.  The calls it makes to the ledger are, in order,
an initial part of the list "one pending-nonce query for the sender, one gas
estimation for the call message": at most one of each, no `SendTransaction`, no
`Commit`, no `TransactionReceipt`.  Over a ledger whose two queries are
read-only the whole chain, ledger state included, is unchanged. -/
theorem createSignedTransaction_frame (lib : Library Config Signer Key)
    (b : SimulatedBackend σ) (tc : TestChain σ Key) (sender : Address)
    (to_ : Option Address) (value : Int) (data : List Nat) :
    (CreateSignedTransaction lib b tc sender to_ value data).tc.Accounts = tc.Accounts ∧
    (CreateSignedTransaction lib b tc sender to_ value data).tc.PrivateKeys =
      tc.PrivateKeys ∧
    (CreateSignedTransaction lib b tc sender to_ value data).tc.TransactOpts =
      tc.TransactOpts ∧
    ((CreateSignedTransaction lib b tc sender to_ value data).log.filter Event.isLedgerCall <+:
      [.PendingNonceAt sender, .EstimateGas (callMsg sender to_ value data)]) ∧
    (CreateSignedTransaction lib b tc sender to_ value data).log.countP
      Event.isPendingNonceAt ≤ 1 ∧
    (CreateSignedTransaction lib b tc sender to_ value data).log.countP
      Event.isEstimateGas ≤ 1 ∧
    (CreateSignedTransaction lib b tc sender to_ value data).log.countP
      Event.isSendTransaction = 0 ∧
    (CreateSignedTransaction lib b tc sender to_ value data).log.countP
      Event.isCommit = 0 ∧
    (CreateSignedTransaction lib b tc sender to_ value data).log.countP
      Event.isTransactionReceipt = 0 ∧
    (b.QueriesReadOnly →
      (CreateSignedTransaction lib b tc sender to_ value data).tc = tc) :=
  createSignedTransaction_effects lib b tc sender to_ value data

/-- C7 on the demo ledger, whose queries are read-only: the chain after the call
is the chain before it. -/
theorem createSignedTransaction_frame_witness :
    (CreateSignedTransaction demoLibrary demoBackend (demoChain 5) 101 none 0 [1, 2]).tc =
      demoChain 5 :=
  (createSignedTransaction_frame demoLibrary demoBackend (demoChain 5) 101 none 0
    [1, 2]).2.2.2.2.2.2.2.2.2 ⟨fun _ _ => rfl, fun _ _ => rfl⟩

/-- C10: whenever `CreateSignedTransaction` makes a signing call, the signer of
that call is `MakeSigner(AllEthashProtocolChanges, nil)`, a value fixed by the
library alone (the same for every chain, ledger, sender, recipient, value and
payload), the key is the one read from `PrivateKeys` under the sender, and the
outcome of that call is what `CreateSignedTransaction` returns. -/
theorem createSignedTransaction_signer (lib : Library Config Signer Key)
    (b : SimulatedBackend σ) (tc : TestChain σ Key) (sender : Address)
    (to_ : Option Address) (value : Int) (data : List Nat)
    (tx : Transaction) (signer : Signer) (prv : Option Key)
    (h : Event.SignTx tx signer prv ∈
      (CreateSignedTransaction lib b tc sender to_ value data).log) :
    signer = lib.MakeSigner lib.AllEthashProtocolChanges none ∧
    prv = tc.PrivateKeys sender ∧
    (CreateSignedTransaction lib b tc sender to_ value data).out =
      lib.SignTx tx signer prv := by
  rcases createSignedTransaction_cases b tc sender to_ value data with
    ⟨e, s1, hn⟩ | ⟨n, s1, e, s2, hn, hg⟩ | ⟨n, s1, g, s2, hn, hg⟩
  · rw [createSignedTransaction_nonce_error lib b tc sender to_ value data e s1 hn] at h
    simp at h
  · rw [createSignedTransaction_gas_error lib b tc sender to_ value data n e s1 s2 hn hg] at h
    simp at h
  · rw [createSignedTransaction_sign lib b tc sender to_ value data n g s1 s2 hn hg] at h ⊢
    simp at h
    obtain ⟨h1, h2, h3⟩ := h
    subst h1
    subst h2
    subst h3
    exact ⟨rfl, rfl, rfl⟩

/-- C10 on the demo chain: the signing call made for account 102. -/
theorem createSignedTransaction_signer_witness :
    () = demoLibrary.MakeSigner demoLibrary.AllEthashProtocolChanges none ∧
    some 2 = (demoChain 5).PrivateKeys 102 ∧
    (CreateSignedTransaction demoLibrary demoBackend (demoChain 5) 102 (some 7) 0 [9]).out =
      demoLibrary.SignTx (unsignedTx 5 (some 7) 0 21001 1 [9]) () (some 2) :=
  createSignedTransaction_signer demoLibrary demoBackend (demoChain 5) 102 (some 7) 0 [9]
    (unsignedTx 5 (some 7) 0 21001 1 [9]) () (some 2) (by decide)

/-- C6: over a ledger whose queries are read-only and on which the pending nonce
of the sender advances by one on each accepted submission of a transaction
signed for that sender, let `n` be the sender's pending nonce before the first
call.  If a first `CreateSignedTransaction` returns `tx1`, the ledger accepts
`tx1`, and a second `CreateSignedTransaction` on the resulting chain returns
`tx2`, then the transaction built and signed by the first call has nonce `n` and
the one built and signed by the second call has nonce `n + 1`. -/
theorem createSignedTransaction_sequential_nonces (lib : Library Config Signer Key)
    (b : SimulatedBackend σ) (tc : TestChain σ Key) (sender : Address)
    (to1 : Option Address) (value1 : Int) (data1 : List Nat)
    (to2 : Option Address) (value2 : Int) (data2 : List Nat)
    (n : Nat) (tx1 tx2 : Transaction) (s : σ)
    (hro : b.QueriesReadOnly) (hadv : NonceAdvances lib b tc sender)
    (hn : (b.PendingNonceAt tc.Chain sender).1 = .ok n)
    (h1 : (CreateSignedTransaction lib b tc sender to1 value1 data1).out = .ok tx1)
    (hs : b.SendTransaction
      (CreateSignedTransaction lib b tc sender to1 value1 data1).tc.Chain tx1 = (none, s))
    (h2 : (CreateSignedTransaction lib b
      { (CreateSignedTransaction lib b tc sender to1 value1 data1).tc with Chain := s }
      sender to2 value2 data2).out = .ok tx2) :
    ∃ u1 u2 : Transaction,
      Event.SignTx u1 (staticSigner lib) (tc.PrivateKeys sender) ∈
        (CreateSignedTransaction lib b tc sender to1 value1 data1).log ∧
      lib.SignTx u1 (staticSigner lib) (tc.PrivateKeys sender) = .ok tx1 ∧
      u1.AccountNonce = n ∧
      Event.SignTx u2 (staticSigner lib) (tc.PrivateKeys sender) ∈
        (CreateSignedTransaction lib b
          { (CreateSignedTransaction lib b tc sender to1 value1 data1).tc with Chain := s }
          sender to2 value2 data2).log ∧
      lib.SignTx u2 (staticSigner lib) (tc.PrivateKeys sender) = .ok tx2 ∧
      u2.AccountNonce = n + 1 := by
  have hframe := (createSignedTransaction_effects lib b tc sender to1 value1
    data1).2.2.2.2.2.2.2.2.2 hro
  rw [hframe] at hs h2 ⊢
  rcases createSignedTransaction_cases b tc sender to1 value1 data1 with
    ⟨e, s1, hn1⟩ | ⟨m, s1, e, s2, hn1, hg1⟩ | ⟨m, s1, g, s2, hn1, hg1⟩
  · rw [createSignedTransaction_nonce_error lib b tc sender to1 value1 data1 e s1 hn1] at h1
    cases h1
  · rw [createSignedTransaction_gas_error lib b tc sender to1 value1 data1 m e s1 s2
      hn1 hg1] at h1
    cases h1
  · rw [createSignedTransaction_sign lib b tc sender to1 value1 data1 m g s1 s2 hn1 hg1] at h1
    have hm : m = n := by
      rw [hn1] at hn
      cases hn
      rfl
    subst hm
    have hnext : (b.PendingNonceAt s sender).1 = .ok (m + 1) :=
      hadv tc.Chain tx1 s m ⟨_, h1⟩ hs hn
    rcases createSignedTransaction_cases b { tc with Chain := s } sender to2 value2 data2 with
      ⟨e, t1, hn2⟩ | ⟨k, t1, e, t2, hn2, hg2⟩ | ⟨k, t1, g2, t2, hn2, hg2⟩
    · rw [createSignedTransaction_nonce_error lib b _ sender to2 value2 data2 e t1 hn2] at h2
      cases h2
    · rw [createSignedTransaction_gas_error lib b _ sender to2 value2 data2 k e t1 t2
        hn2 hg2] at h2
      cases h2
    · have hk : k = m + 1 := by
        have h3 : (b.PendingNonceAt s sender).1 = .ok k := by
          have := congrArg Prod.fst hn2
          exact this
        rw [hnext] at h3
        cases h3
        rfl
      subst hk
      rw [createSignedTransaction_sign lib b _ sender to2 value2 data2 (m + 1) g2 t1 t2
        hn2 hg2] at h2 ⊢
      rw [createSignedTransaction_sign lib b tc sender to1 value1 data1 m g s1 s2 hn1 hg1]
      refine ⟨unsignedTx m to1 value1 g 1 data1, unsignedTx (m + 1) to2 value2 g2 1 data2,
        by simp, h1, ?_, by simp, h2, ?_⟩
      · rw [unsignedTx_fields]
      · rw [unsignedTx_fields]

/-- The demo ledger advances the pending nonce of account 101 on every accepted
submission. -/
theorem demoBackend_nonceAdvances :
    NonceAdvances demoLibrary demoBackend (demoChain 5) 101 := by
  intro s t s1 n _ hs hn
  simp only [demoBackend] at hs hn ⊢
  split at hs
  · cases hs
  · cases hs
    simp only [if_neg (by decide : ¬ (101 : Nat) = 0)] at hn ⊢
    cases hn
    rfl

/-- C6 on the demo ledger: account 101 builds a contract creation at pending
nonce 5, submits it, and then builds a call to account 7. -/
theorem createSignedTransaction_sequential_nonces_witness :
    ∃ u1 u2 : Transaction,
      Event.SignTx u1 (staticSigner demoLibrary) ((demoChain 5).PrivateKeys 101) ∈
        (CreateSignedTransaction demoLibrary demoBackend (demoChain 5) 101 none 0 [1, 2]).log ∧
      demoLibrary.SignTx u1 (staticSigner demoLibrary) ((demoChain 5).PrivateKeys 101) =
        .ok { unsignedTx 5 none 0 21002 1 [1, 2] with V := 27, R := 1, S := 1 } ∧
      u1.AccountNonce = 5 ∧
      Event.SignTx u2 (staticSigner demoLibrary) ((demoChain 5).PrivateKeys 101) ∈
        (CreateSignedTransaction demoLibrary demoBackend
          { (CreateSignedTransaction demoLibrary demoBackend (demoChain 5) 101 none 0
              [1, 2]).tc with Chain := 6 }
          101 (some 7) 3 [9]).log ∧
      demoLibrary.SignTx u2 (staticSigner demoLibrary) ((demoChain 5).PrivateKeys 101) =
        .ok { unsignedTx 6 (some 7) 3 21001 1 [9] with V := 27, R := 1, S := 1 } ∧
      u2.AccountNonce = 5 + 1 :=
  createSignedTransaction_sequential_nonces demoLibrary demoBackend (demoChain 5) 101
    none 0 [1, 2] (some 7) 3 [9] 5
    { unsignedTx 5 none 0 21002 1 [1, 2] with V := 27, R := 1, S := 1 }
    { unsignedTx 6 (some 7) 3 21001 1 [9] with V := 27, R := 1, S := 1 } 6
    ⟨fun _ _ => rfl, fun _ _ => rfl⟩ demoBackend_nonceAdvances rfl rfl rfl rfl

/-! ## Claims about `DeployContract` -/

/-- C1: when building the signed transaction succeeds, the ledger accepts it, and
the receipt query for the hash of that signed transaction (made after the
commit) returns a receipt without error, `DeployContract` returns the error
"contract deployment failed" and a nil address if the receipt's status is 0, and
the receipt's contract address and a nil error otherwise; in both cases exactly
one of the returned address and error is non-nil. -/
theorem deployContract_result (lib : Library Config Signer Key)
    (b : SimulatedBackend σ) (tc : TestChain σ Key) (sender : Address) (value : Int)
    (data : List Nat) (signedTx : Transaction) (receipt : Receipt) (s1 s3 : σ)
    (hc : (CreateSignedTransaction lib b tc sender none value data).out = .ok signedTx)
    (hs : b.SendTransaction (CreateSignedTransaction lib b tc sender none value data).tc.Chain
      signedTx = (none, s1))
    (hr : b.TransactionReceipt (b.Commit s1) (lib.Hash signedTx) = (.ok (some receipt), s3)) :
    (receipt.Status = 0 →
      (DeployContract lib b tc sender value data).out = .error "contract deployment failed" ∧
      (DeployContract lib b tc sender value data).out.val? = none ∧
      (DeployContract lib b tc sender value data).out.err? =
        some "contract deployment failed") ∧
    (receipt.Status ≠ 0 →
      (DeployContract lib b tc sender value data).out = .ok receipt.ContractAddress ∧
      (DeployContract lib b tc sender value data).out.val? = some receipt.ContractAddress ∧
      (DeployContract lib b tc sender value data).out.err? = none) ∧
    (((DeployContract lib b tc sender value data).out.val? = none ∧
        (DeployContract lib b tc sender value data).out.err? ≠ none) ∨
      ((DeployContract lib b tc sender value data).out.val? ≠ none ∧
        (DeployContract lib b tc sender value data).out.err? = none)) := by
  rw [deployContract_receipt lib b tc sender value data signedTx receipt s1 s3 hc hs hr]
  by_cases h0 : receipt.Status = 0
  · simp [h0, Outcome.val?, Outcome.err?]
  · simp [h0, Outcome.val?, Outcome.err?]

/-- C1 on the demo ledger: the deployment by account 101 at nonce 5 is mined
with status 1, the one at nonce 4 with status 0. -/
theorem deployContract_result_witness :
    (DeployContract demoLibrary demoBackend (demoChain 5) 101 0 [1, 2]).out = .ok 22007 ∧
    (DeployContract demoLibrary demoBackend (demoChain 4) 101 0 [1, 2]).out =
      .error "contract deployment failed" :=
  ⟨((deployContract_result demoLibrary demoBackend (demoChain 5) 101 0 [1, 2]
      { unsignedTx 5 none 0 21002 1 [1, 2] with V := 27, R := 1, S := 1 }
      { Status := 1, ContractAddress := 22007 } 6 6 rfl rfl rfl).2.1 (by decide)).1,
   ((deployContract_result demoLibrary demoBackend (demoChain 4) 101 0 [1, 2]
      { unsignedTx 4 none 0 21002 1 [1, 2] with V := 27, R := 1, S := 1 }
      { Status := 0, ContractAddress := 22006 } 5 5 rfl rfl rfl).1 rfl).1⟩

/-- C9: `DeployContract` stops at the first failing step.  If building the signed
transaction returns an error, that error is returned with a nil address and the
log holds no submission and no commit.  If the ledger rejects the submission, its
error is returned with a nil address and the log holds no commit.  The log holds
exactly one commit when building and submission both succeeded and none
otherwise, and no kind of call occurs more than once. -/
theorem deployContract_hard_stop (lib : Library Config Signer Key)
    (b : SimulatedBackend σ) (tc : TestChain σ Key) (sender : Address) (value : Int)
    (data : List Nat) :
    (∀ e, (CreateSignedTransaction lib b tc sender none value data).out = .error e →
      (DeployContract lib b tc sender value data).out = .error e ∧
      (DeployContract lib b tc sender value data).out.val? = none ∧
      (DeployContract lib b tc sender value data).log.countP Event.isSendTransaction = 0 ∧
      (DeployContract lib b tc sender value data).log.countP Event.isCommit = 0) ∧
    (∀ t e s1, (CreateSignedTransaction lib b tc sender none value data).out = .ok t →
      b.SendTransaction (CreateSignedTransaction lib b tc sender none value data).tc.Chain t =
        (some e, s1) →
      (DeployContract lib b tc sender value data).out = .error e ∧
      (DeployContract lib b tc sender value data).out.val? = none ∧
      (DeployContract lib b tc sender value data).log.countP Event.isSendTransaction = 1 ∧
      (DeployContract lib b tc sender value data).log.countP Event.isCommit = 0) ∧
    ((DeployContract lib b tc sender value data).log.countP Event.isCommit = 1 ↔
      ∃ t s1, (CreateSignedTransaction lib b tc sender none value data).out = .ok t ∧
        b.SendTransaction (CreateSignedTransaction lib b tc sender none value data).tc.Chain
          t = (none, s1)) ∧
    ((DeployContract lib b tc sender value data).log.countP Event.isCommit = 0 ↔
      ¬ ∃ t s1, (CreateSignedTransaction lib b tc sender none value data).out = .ok t ∧
        b.SendTransaction (CreateSignedTransaction lib b tc sender none value data).tc.Chain
          t = (none, s1)) ∧
    (DeployContract lib b tc sender value data).log.countP Event.isPendingNonceAt ≤ 1 ∧
    (DeployContract lib b tc sender value data).log.countP Event.isEstimateGas ≤ 1 ∧
    (DeployContract lib b tc sender value data).log.countP Event.isSignTx ≤ 1 ∧
    (DeployContract lib b tc sender value data).log.countP Event.isSendTransaction ≤ 1 ∧
    (DeployContract lib b tc sender value data).log.countP Event.isCommit ≤ 1 ∧
    (DeployContract lib b tc sender value data).log.countP Event.isTransactionReceipt ≤ 1 := by
  obtain ⟨-, -, -, -, hcn, hcg, hcs, hcc, hcr, -⟩ :=
    createSignedTransaction_effects lib b tc sender none value data
  have hsg := createSignedTransaction_sign_count lib b tc sender none value data
  rcases deployContract_log lib b tc sender value data with
    ⟨hno, hlog⟩ | ⟨t, e, s1, hc, hs, hlog⟩ | ⟨t, s1, hc, hs, hlog⟩
  · rw [hlog]
    refine ⟨?_, ?_, ?_, ?_, hcn, hcg, hsg, by omega, by omega, by omega⟩
    · intro e he
      rw [deployContract_build_error lib b tc sender value data e he]
      exact ⟨rfl, rfl, hcs, hcc⟩
    · intro t e s1 hc
      exact absurd hc (hno t)
    · constructor
      · intro h
        omega
      · rintro ⟨t, s1, hc, -⟩
        exact absurd hc (hno t)
    · constructor
      · rintro - ⟨t, s1, hc, -⟩
        exact absurd hc (hno t)
      · intro _
        exact hcc
  · have hcount : ∀ p : Event Signer Key → Bool,
        (DeployContract lib b tc sender value data).log.countP p =
          (CreateSignedTransaction lib b tc sender none value data).log.countP p +
            (if p (.SendTransaction t) then 1 else 0) := by
      intro p
      rw [hlog, List.countP_append, List.countP_cons, List.countP_nil]
      simp
    have h1 := hcount Event.isPendingNonceAt
    have h2 := hcount Event.isEstimateGas
    have h3 := hcount Event.isSignTx
    have h4 := hcount Event.isSendTransaction
    have h5 := hcount Event.isCommit
    have h6 := hcount Event.isTransactionReceipt
    simp only [Event.isPendingNonceAt, Event.isEstimateGas, Event.isSignTx,
      Event.isSendTransaction, Event.isCommit, Event.isTransactionReceipt] at h1 h2 h3 h4 h5 h6
    simp at h1 h2 h3 h4 h5 h6
    refine ⟨?_, ?_, ?_, ?_, by omega, by omega, by omega, by omega, by omega, by omega⟩
    · intro e1 he
      rw [hc] at he
      cases he
    · intro t1 e1 t1s hc1 hs1
      rw [deployContract_send_error lib b tc sender value data t e s1 hc hs]
      rw [hc] at hc1
      cases hc1
      rw [hs] at hs1
      cases hs1
      refine ⟨rfl, rfl, ?_, ?_⟩
      · rw [deployContract_send_error lib b tc sender value data t e s1 hc hs] at h4
        omega
      · rw [deployContract_send_error lib b tc sender value data t e s1 hc hs] at h5
        omega
    · constructor
      · intro h
        omega
      · rintro ⟨t1, t1s, hc1, hs1⟩
        rw [hc] at hc1
        cases hc1
        rw [hs] at hs1
        cases hs1
    · constructor
      · rintro - ⟨t1, t1s, hc1, hs1⟩
        rw [hc] at hc1
        cases hc1
        rw [hs] at hs1
        cases hs1
      · intro _
        omega
  · have hcount : ∀ p : Event Signer Key → Bool,
        (DeployContract lib b tc sender value data).log.countP p =
          (CreateSignedTransaction lib b tc sender none value data).log.countP p +
            ((if p (.SendTransaction t) then 1 else 0) + ((if p .Commit then 1 else 0) +
              (if p (.TransactionReceipt (lib.Hash t)) then 1 else 0))) := by
      intro p
      rw [hlog, List.countP_append, List.countP_cons, List.countP_cons, List.countP_cons,
        List.countP_nil]
      omega
    have h1 := hcount Event.isPendingNonceAt
    have h2 := hcount Event.isEstimateGas
    have h3 := hcount Event.isSignTx
    have h4 := hcount Event.isSendTransaction
    have h5 := hcount Event.isCommit
    have h6 := hcount Event.isTransactionReceipt
    simp only [Event.isPendingNonceAt, Event.isEstimateGas, Event.isSignTx,
      Event.isSendTransaction, Event.isCommit, Event.isTransactionReceipt] at h1 h2 h3 h4 h5 h6
    simp at h1 h2 h3 h4 h5 h6
    refine ⟨?_, ?_, ?_, ?_, by omega, by omega, by omega, by omega, by omega, by omega⟩
    · intro e1 he
      rw [hc] at he
      cases he
    · intro t1 e1 t1s hc1 hs1
      rw [hc] at hc1
      cases hc1
      rw [hs] at hs1
      cases hs1
    · constructor
      · intro _
        exact ⟨t, s1, hc, hs⟩
      · intro _
        omega
    · constructor
      · intro h
        omega
      · intro h
        exact absurd ⟨t, s1, hc, hs⟩ h

/-- C9 on the demo ledger: a deployment carrying a negative value is built,
rejected at submission, and stops there with the ledger's error. -/
theorem deployContract_hard_stop_witness :
    (DeployContract demoLibrary demoBackend (demoChain 5) 101 (-1) [1, 2]).out =
      .error "insufficient funds" ∧
    (DeployContract demoLibrary demoBackend (demoChain 5) 101 (-1) [1, 2]).out.val? = none ∧
    (DeployContract demoLibrary demoBackend (demoChain 5) 101 (-1) [1, 2]).log.countP
      Event.isSendTransaction = 1 ∧
    (DeployContract demoLibrary demoBackend (demoChain 5) 101 (-1) [1, 2]).log.countP
      Event.isCommit = 0 :=
  (deployContract_hard_stop demoLibrary demoBackend (demoChain 5) 101 (-1) [1, 2]).2.1
    { unsignedTx 5 none (-1) 21002 1 [1, 2] with V := 27, R := 1, S := 1 }
    "insufficient funds" 5 rfl rfl

/-! ## Claims about `NewTestChain` -/

/-- C5: `_bigInt` parses the balance text to 100000000000000000000000000, which
is 10^26; `NewTestChain` lists 128 accounts and hands the ledger constructor a
genesis allocation in which the account at every index below 128 (so index 0
and index 127), that is every listed account, has exactly that balance. -/
theorem newTestChain_balances (lib : Library Config Signer Key) (b : SimulatedBackend σ) :
    _bigInt "100000000000000000000000000" = some ((10 : Int) ^ 26) ∧
    (NewTestChain lib b).Accounts.length = 128 ∧
    (NewTestChain lib b).Chain =
      b.NewSimulatedBackend (NewTestChain.setup lib).alloc 8000000 ∧
    (∀ a ∈ (NewTestChain lib b).Accounts,
      (NewTestChain.setup lib).alloc a = some { Balance := some ((10 : Int) ^ 26) }) ∧
    (∀ i, i < 128 → ∃ a, (NewTestChain lib b).Accounts[i]? = some a ∧
      (NewTestChain.setup lib).alloc a = some { Balance := some ((10 : Int) ^ 26) }) := by
  have hbal : _bigInt "100000000000000000000000000" = some ((10 : Int) ^ 26) := by
    rw [bigInt_balance]
    norm_num
  have hlen : (NewTestChain lib b).Accounts.length = 128 := by
    simp [NewTestChain, setup_accounts]
  have hmem : ∀ a ∈ (NewTestChain lib b).Accounts,
      (NewTestChain.setup lib).alloc a = some { Balance := some ((10 : Int) ^ 26) } := by
    intro a ha
    rw [← hbal]
    exact (setup_registered lib a ha).2.2
  refine ⟨hbal, hlen, rfl, hmem, ?_⟩
  intro i hi
  have hi2 : i < (NewTestChain lib b).Accounts.length := by
    rw [hlen]
    exact hi
  refine ⟨(NewTestChain lib b).Accounts[i], ?_, ?_⟩
  · exact List.getElem?_eq_getElem hi2
  · exact hmem _ (List.getElem_mem hi2)

/-- C5 on the demo library: the last listed account (index 127). -/
theorem newTestChain_balances_witness :
    ∃ a, (NewTestChain demoLibrary demoBackend).Accounts[127]? = some a ∧
      (NewTestChain.setup demoLibrary).alloc a = some { Balance := some ((10 : Int) ^ 26) } :=
  (newTestChain_balances demoLibrary demoBackend).2.2.2.2 127 (by decide)

/-- C8: in the chain returned by `NewTestChain`, `Accounts` has 128 entries, the
`i`-th being the address derived from the `i`-th generated key.  With keys drawn
independently (no key drawn twice, no two drawn keys with the same address) the
128 entries are pairwise distinct.  Each entry `a` is the address derived from
the private key stored under `a` in `PrivateKeys` and is the `From` address of
the signing context stored under `a` in `TransactOpts`: every listed account has
an entry in both maps. -/
theorem newTestChain_accounts (lib : Library Config Signer Key) (b : SimulatedBackend σ)
    (hkeys : lib.IndependentKeys) :
    (NewTestChain lib b).Accounts.length = 128 ∧
    (NewTestChain lib b).Accounts.Nodup ∧
    (∀ i, i < 128 → ∀ j, j < 128 → i ≠ j →
      (NewTestChain lib b).Accounts[i]? ≠ (NewTestChain lib b).Accounts[j]?) ∧
    (∀ i, i < 128 →
      (NewTestChain lib b).Accounts[i]? = some (addressOf lib (lib.GenerateKey i))) ∧
    (∀ a ∈ (NewTestChain lib b).Accounts,
      (∃ k, (NewTestChain lib b).PrivateKeys a = some k ∧ addressOf lib k = a) ∧
      (∃ o, (NewTestChain lib b).TransactOpts a = some o ∧ o.From = a)) := by
  have hacc : (NewTestChain lib b).Accounts =
      (List.range 128).map (generatedAddress lib) := setup_accounts lib
  have hget : ∀ i, i < 128 →
      (NewTestChain lib b).Accounts[i]? = some (addressOf lib (lib.GenerateKey i)) := by
    intro i hi
    rw [hacc, List.getElem?_map, List.getElem?_range hi]
    rfl
  have hinj : ∀ i, i < 128 → ∀ j, j < 128 →
      generatedAddress lib i = generatedAddress lib j → i = j := by
    intro i hi j hj h
    exact hkeys.1 i hi j hj (hkeys.2 i hi j hj h)
  refine ⟨by rw [hacc]; simp, ?_, ?_, hget, ?_⟩
  · rw [hacc, List.nodup_map_iff_inj_on (List.nodup_range 128)]
    intro i hi j hj h
    exact hinj i (List.mem_range.1 hi) j (List.mem_range.1 hj) h
  · intro i hi j hj hne h
    rw [hget i hi, hget j hj] at h
    exact hne (hinj i hi j hj (Option.some.inj h))
  · intro a ha
    obtain ⟨hk, ho, -⟩ := setup_registered lib a ha
    exact ⟨hk, ho⟩

/-- C8 on the demo library, whose `i`-th key is `i + 1` with address `i + 101`:
the listed accounts are pairwise distinct. -/
theorem newTestChain_accounts_witness :
    (NewTestChain demoLibrary demoBackend).Accounts.Nodup :=
  (newTestChain_accounts demoLibrary demoBackend
    ⟨fun i _ j _ h => by
        have h1 : i + 1 = j + 1 := h
        omega,
      fun i _ j _ h => by
        have h1 : i + 1 + 100 = j + 1 + 100 := h
        have h2 : i = j := by omega
        rw [h2]⟩).2.1

end Claims

end Testchain
